import Mathlib

/-!
Shallow embedding of the tape_light LED engine core (src/utils/color_utils.py,
src/models/light_segment.py, src/models/light_effect.py,
src/models/scene_manager.py, src/controllers/osc_handler.py).

Python floats are modelled as exact rationals; Python `int(x)` conversion is
truncation toward zero; Python `%` on a positive divisor is the nonnegative
remainder.  Fallible Python code (subscript of a missing dict key, arithmetic
on a non-numeric value) is modelled with `Except`.
-/

namespace TapeLight

/-- Error outcomes of the embedded Python code. -/
inductive PyErr where
  | keyError : PyErr
  | typeError : PyErr
deriving DecidableEq, Repr

/-- Python `int(x)` on a float: truncation toward zero. -/
def pyInt (q : ℚ) : ℤ := if 0 ≤ q then ⌊q⌋ else ⌈q⌉

/-- Python `a % b` for floats with `b > 0`: remainder with the sign of `b`. -/
def pyMod (a b : ℚ) : ℚ := a - b * ⌊a / b⌋

/-- Channel clamp `max(0, min(255, n))` used throughout color_utils.py. -/
def clamp255 (n : ℤ) : ℤ := max 0 (min 255 n)

/-- An RGB triple as produced by the color kernel (`[r, g, b]` lists in the source). -/
structure RGB where
  r : ℤ
  g : ℤ
  b : ℤ
deriving DecidableEq, Repr

/-- The black pixel `[0, 0, 0]`. -/
def black : RGB := ⟨0, 0, 0⟩

/-- color_utils.interpolate_colors: componentwise
`int(c1 + (c2 - c1) * factor)` clamped to `[0, 255]`.  The factor is used
as given (the source never clamps it). -/
def interpolate_colors (c1 c2 : RGB) (factor : ℚ) : RGB :=
  ⟨clamp255 (pyInt ((c1.r : ℚ) + ((c2.r : ℚ) - (c1.r : ℚ)) * factor)),
   clamp255 (pyInt ((c1.g : ℚ) + ((c2.g : ℚ) - (c1.g : ℚ)) * factor)),
   clamp255 (pyInt ((c1.b : ℚ) + ((c2.b : ℚ) - (c1.b : ℚ)) * factor))⟩

/-- color_utils.apply_brightness: componentwise `int(c * k)` clamped to `[0, 255]`. -/
def apply_brightness (c : RGB) (k : ℚ) : RGB :=
  ⟨clamp255 (pyInt ((c.r : ℚ) * k)),
   clamp255 (pyInt ((c.g : ℚ) * k)),
   clamp255 (pyInt ((c.b : ℚ) * k))⟩

/-- color_utils.blend_colors: weighted average with re-normalised weights,
componentwise `int` then clamp; degenerate inputs give black. -/
def blend_colors (colors : List RGB) (weights : List ℚ) : RGB :=
  if colors = [] ∨ weights = [] ∨ colors.length ≠ weights.length then black
  else
    let total_weight := weights.sum
    if total_weight = 0 then black
    else
      let pairs := colors.zip (weights.map (· / total_weight))
      ⟨clamp255 (pyInt (pairs.map (fun p => (p.1.r : ℚ) * p.2)).sum),
       clamp255 (pyInt (pairs.map (fun p => (p.1.g : ℚ) * p.2)).sum),
       clamp255 (pyInt (pairs.map (fun p => (p.1.b : ℚ) * p.2)).sum)⟩

/-- Specification-side interpolation, written from the spec's words
(section 4.1): componentwise `round(a + (b - a) * clamp(t, 0, 1))` clamped
to `[0, 255]`. -/
def interpolate_spec (c1 c2 : RGB) (t : ℚ) : RGB :=
  let tc := max 0 (min 1 t)
  ⟨clamp255 (round ((c1.r : ℚ) + ((c2.r : ℚ) - (c1.r : ℚ)) * tc)),
   clamp255 (round ((c1.g : ℚ) + ((c2.g : ℚ) - (c1.g : ℚ)) * tc)),
   clamp255 (round ((c1.b : ℚ) + ((c2.b : ℚ) - (c1.b : ℚ)) * tc))⟩

/-- Amended description of interpolate_colors: componentwise truncation
toward zero of `a + (b - a) * t` with the raw factor, clamped to `[0, 255]`. -/
def interpolate_amended (c1 c2 : RGB) (t : ℚ) : RGB :=
  ⟨clamp255 (pyInt ((c1.r : ℚ) + ((c2.r : ℚ) - (c1.r : ℚ)) * t)),
   clamp255 (pyInt ((c1.g : ℚ) + ((c2.g : ℚ) - (c1.g : ℚ)) * t)),
   clamp255 (pyInt ((c1.b : ℚ) + ((c2.b : ℚ) - (c1.b : ℚ)) * t))⟩

/-- State of a LightSegment (light_segment.py).  `moveLo`/`moveHi` are the two
entries of the normalised `move_range` list; floats are exact rationals. -/
structure Segment where
  segment_ID : ℤ
  color : List ℤ
  transparency : List ℚ
  length : List ℤ
  move_speed : ℚ
  moveLo : ℚ
  moveHi : ℚ
  current_position : ℚ
  is_edge_reflect : Bool
  dimmer_time : List ℤ
  dimmer_time_ratio : ℚ
  time : ℚ
  direction : ℤ
  gradient : Bool
  fade : Bool
deriving DecidableEq, Repr

/-- LightSegment.__init__ with the constructor defaults
(`time = 0`, `gradient = fade = false`, normalised move_range,
`current_position = initial_position`, `direction` from the speed sign). -/
def mkSegment (sid : ℤ) (color : List ℤ) (transparency : List ℚ) (length : List ℤ)
    (move_speed lo hi : ℚ) (initial_position : ℚ) (is_edge_reflect : Bool)
    (dimmer_time : List ℤ) (dimmer_time_ratio : ℚ) : Segment :=
  { segment_ID := sid
    color := color
    transparency := transparency
    length := length
    move_speed := move_speed
    moveLo := min lo hi
    moveHi := max lo hi
    current_position := initial_position
    is_edge_reflect := is_edge_reflect
    dimmer_time := dimmer_time
    dimmer_time_ratio := dimmer_time_ratio
    time := 0
    direction := if 0 ≤ move_speed then 1 else -1
    gradient := false
    fade := false }

/-- LightSegment.update_position(fps): advance `time` by `dt = 1/fps`, move the
anchor by `move_speed * dt`, then apply the edge policy (reflect or wrap with a
final safety clamp).  Straight transcription of light_segment.py lines 101-141. -/
def update_position (s : Segment) (fps : ℕ) : Segment :=
  let dt : ℚ := 1 / (fps : ℚ)
  let t' := s.time + dt
  let delta := s.move_speed * dt
  let new_position := s.current_position + delta
  let total_length : ℚ := (s.length.sum : ℚ)
  if s.is_edge_reflect then
    if new_position < s.moveLo then
      { s with time := t', current_position := s.moveLo, direction := 1,
               move_speed := |s.move_speed| }
    else if new_position + total_length - 1 > s.moveHi then
      { s with time := t', current_position := s.moveHi - total_length + 1,
               direction := -1, move_speed := -|s.move_speed| }
    else
      { s with time := t', current_position := new_position }
  else
    let np1 :=
      if new_position < s.moveLo then
        s.moveHi - (s.moveLo - new_position) + 1
      else if new_position + total_length - 1 > s.moveHi then
        s.moveLo + (new_position + total_length - 1 - s.moveHi) - 1
      else new_position
    let np2 :=
      if np1 < s.moveLo then s.moveLo
      else if np1 + total_length - 1 > s.moveHi then s.moveHi - total_length + 1
      else np1
    { s with time := t', current_position := np2 }

/-- LightSegment.apply_dimming(): the trapezoidal envelope.  Returns 1.0 when
`fade` is off, the dimmer_time list is missing entries, or the (scaled) cycle
length is not positive; otherwise evaluates the piecewise trapezoid at
`int((time*1000) % cycle)` milliseconds. -/
def apply_dimming (s : Segment) : ℚ :=
  if s.fade = false ∨ s.dimmer_time.length < 5 ∨ s.dimmer_time.getD 4 0 ≤ 0 then 1
  else
    let cycle_time := pyInt ((s.dimmer_time.getD 4 0 : ℚ) * s.dimmer_time_ratio)
    if cycle_time ≤ 0 then 1
    else
      let current_time := pyInt (pyMod (s.time * 1000) (cycle_time : ℚ))
      let fade_in_start := pyInt ((s.dimmer_time.getD 0 0 : ℚ) * s.dimmer_time_ratio)
      let fade_in_end := pyInt ((s.dimmer_time.getD 1 0 : ℚ) * s.dimmer_time_ratio)
      let fade_out_start := pyInt ((s.dimmer_time.getD 2 0 : ℚ) * s.dimmer_time_ratio)
      let fade_out_end := pyInt ((s.dimmer_time.getD 3 0 : ℚ) * s.dimmer_time_ratio)
      if current_time < fade_in_start then 0
      else if current_time < fade_in_end then
        ((current_time - fade_in_start : ℤ) : ℚ) / ((max 1 (fade_in_end - fade_in_start) : ℤ) : ℚ)
      else if current_time < fade_out_start then 1
      else if current_time < fade_out_end then
        1 - ((current_time - fade_out_start : ℤ) : ℚ) / ((max 1 (fade_out_end - fade_out_start) : ℤ) : ℚ)
      else 0

/-- Keys of a Python dict that mixes integer keys with string subscripts. -/
inductive PyKey where
  | i : ℤ → PyKey
  | s : String → PyKey
deriving DecidableEq, Repr

/-- One value of the dict returned by get_light_data: an `(RGB, transparency)` pair. -/
abbrev Sample := RGB × ℚ

/-- Lookup in an association list standing for a Python dict subscript:
`none` models a raised KeyError. -/
def dict_find : List (PyKey × Sample) → PyKey → Option Sample
  | [], _ => none
  | (k, v) :: rest, key => if k = key then some v else dict_find rest key

/-- List slice-and-pad used by get_light_data: take the first `n` entries and,
while shorter than `n`, append the current last entry (or `dflt` when empty). -/
def pad_to (n : ℕ) (dflt : α) (l : List α) : List α :=
  let t := l.take n
  t ++ List.replicate (n - t.length) (t.getLast?.getD dflt)

/-- A value appended to `base_rgb` in get_light_data: `palette[idx]` is a
one-character string when the palette argument is a string (`chr`), and the
error-fallback RGB list otherwise. -/
inductive PyColor where
  | chr : Char → PyColor
  | rgb : RGB → PyColor
deriving DecidableEq, Repr

/-- The inclusive integer range `range(a, b + 1)` of the per-LED loop. -/
def int_range (a b : ℤ) : List ℤ :=
  (List.range (b + 1 - a).toNat).map (fun k => a + (k : ℤ))

/-- The `1e-9` guard used on the segment's right edge. -/
def small_eps : ℚ := 1 / 1000000000

/-- Monadic map over the per-LED loop: a raised error aborts the whole call. -/
def sample_leds (f : ℤ → Except PyErr (PyKey × Sample)) :
    List ℤ → Except PyErr (List (PyKey × Sample))
  | [] => Except.ok []
  | i :: rest =>
    match f i with
    | Except.error e => Except.error e
    | Except.ok kv =>
      match sample_leds f rest with
      | Except.error e => Except.error e
      | Except.ok tl => Except.ok (kv :: tl)

/-- Value computation of get_light_data's per-LED loop (light_segment.py lines
253-281): bucket the relative position, interpolate color and transparency,
apply the dimming brightness.  Interpolating with a one-character string
endpoint (out of a string palette) raises TypeError. -/
def sample_value (pos : ℚ) (Lt : ℤ) (lens : List ℤ) (base : List PyColor)
    (trs : List ℚ) (brightness : ℚ) (led : ℤ) : Except PyErr Sample :=
  let L0 : ℚ := (lens.getD 0 0 : ℤ)
  let L1 : ℚ := (lens.getD 1 0 : ℤ)
  let L2 : ℚ := (lens.getD 2 0 : ℤ)
  let rp0 := (led : ℚ) - pos
  let rp := max 0 (min rp0 ((Lt : ℚ) - small_eps))
  let dflt := PyColor.rgb ⟨255, 0, 0⟩
  let pick :=
    if rp < L0 then
      (base.getD 0 dflt, base.getD 1 dflt, trs.getD 0 1, trs.getD 1 1,
       if L0 > 0 then rp / L0 else 0)
    else if rp < L0 + L1 then
      (base.getD 1 dflt, base.getD 2 dflt, trs.getD 1 1, trs.getD 2 1,
       if L1 > 0 then (rp - L0) / L1 else 0)
    else
      (base.getD 2 dflt, base.getD 3 dflt, trs.getD 2 1, trs.getD 3 1,
       if L2 > 0 then (rp - L0 - L1) / L2 else 0)
  match pick with
  | (c1, c2, tr1, tr2, t0) =>
    let t := max 0 (min 1 t0)
    match c1, c2 with
    | PyColor.rgb a, PyColor.rgb b =>
      let interpolated := interpolate_colors a b t
      let transp := tr1 + (tr2 - tr1) * t
      Except.ok (apply_brightness interpolated brightness, transp)
    | _, _ => Except.error PyErr.typeError

/-- One iteration of the per-LED loop: the computed `(color, transparency)`
pair is stored in the dict under the integer LED index. -/
def led_sample (pos : ℚ) (Lt : ℤ) (lens : List ℤ) (base : List PyColor)
    (trs : List ℚ) (brightness : ℚ) (led : ℤ) : Except PyErr (PyKey × Sample) :=
  (sample_value pos Lt lens base trs brightness led).map (fun smp => (PyKey.i led, smp))

/-- LightSegment.get_light_data(palette) as it is actually invoked by
LightEffect.get_led_output: the argument is the palette *name* string, which
the body indexes as if it were a color list, so `palette[idx]` yields a
one-character string for the indices `0 ≤ idx < len(name)` and the error color
for all others. -/
def get_light_data (s : Segment) (palette_name : String) :
    Except PyErr (List (PyKey × Sample)) :=
  let brightness := apply_dimming s
  let segment_colors := pad_to 4 0 s.color
  let segment_transparencies := pad_to 4 1 s.transparency
  let segment_lengths := pad_to 3 0 s.length
  let Lt : ℤ := segment_lengths.sum
  if Lt ≤ 0 then Except.ok []
  else
    let base : List PyColor := segment_colors.map (fun idx =>
      if 0 ≤ idx ∧ idx < (palette_name.length : ℤ) then
        PyColor.chr (palette_name.toList.getD idx.toNat 'A')
      else PyColor.rgb ⟨255, 0, 0⟩)
    let start_led := ⌊s.current_position⌋
    let end_led := ⌊s.current_position + (Lt : ℚ) - small_eps⌋
    sample_leds
      (led_sample s.current_position Lt segment_lengths base
        segment_transparencies brightness)
      (int_range start_led end_led)

/-- State of a LightEffect (light_effect.py).  Segments are an association
list in insertion order, as in the backing dict. -/
structure Effect where
  effect_ID : ℤ
  led_count : ℕ
  fps : ℕ
  time_step : ℚ
  time : ℚ
  current_palette : String
  segments : List (ℤ × Segment)
deriving DecidableEq, Repr

/-- LightEffect.__init__. -/
def mkEffect (eid : ℤ) (led_count fps : ℕ) : Effect :=
  { effect_ID := eid, led_count := led_count, fps := fps,
    time_step := 1 / (fps : ℚ), time := 0, current_palette := "A", segments := [] }

/-- Insert a keyed segment into a list sorted ascending by key. -/
def insert_by_id (p : ℤ × Segment) : List (ℤ × Segment) → List (ℤ × Segment)
  | [] => [p]
  | q :: rest => if p.1 ≤ q.1 then p :: q :: rest else q :: insert_by_id p rest

/-- The `sorted(self.segments.items(), key=...)` in get_led_output. -/
def sort_by_id : List (ℤ × Segment) → List (ℤ × Segment)
  | [] => []
  | p :: rest => insert_by_id p (sort_by_id rest)

/-- The two parallel buffers of get_led_output. -/
structure LedState where
  led_colors : List RGB
  led_transparency : List ℚ
deriving DecidableEq, Repr

/-- One iteration of get_led_output's segment loop (light_effect.py lines
101-159).  The first statement subscripts the per-LED dict with the string
key `'brightness'`, which it never contains, raising KeyError; if the dict
somehow held that key its value would be an `(RGB, float)` pair and the
comparison `<= 0` would raise TypeError.  Either way the loop body never
reaches the compositing code further down. -/
def composite_step (palette_name : String) (_st : LedState) (seg : ℤ × Segment) :
    Except PyErr LedState :=
  match get_light_data seg.2 palette_name with
  | Except.error e => Except.error e
  | Except.ok segment_data =>
    match dict_find segment_data (PyKey.s ("brightness")) with
    | none => Except.error PyErr.keyError
    | some _ => Except.error PyErr.typeError

/-- Fold of composite_step over the sorted segments. -/
def composite_all (palette_name : String) (st : LedState) :
    List (ℤ × Segment) → Except PyErr LedState
  | [] => Except.ok st
  | sg :: rest =>
    match composite_step palette_name st sg with
    | Except.error e => Except.error e
    | Except.ok st' => composite_all palette_name st' rest

/-- LightEffect.get_led_output(): initialise black colors and transparency 1.0,
iterate the segments in ascending id order, return the color buffer. -/
def get_led_output (e : Effect) : Except PyErr (List RGB) :=
  let st : LedState :=
    { led_colors := List.replicate e.led_count black
      led_transparency := List.replicate e.led_count 1 }
  match composite_all e.current_palette st (sort_by_id e.segments) with
  | Except.error err => Except.error err
  | Except.ok st' => Except.ok st'.led_colors

/-- LightEffect.update_all(): advance the effect clock by `time_step`, then for
each segment overwrite its clock with the effect clock and integrate motion. -/
def update_all (e : Effect) : Effect :=
  let t' := e.time + e.time_step
  { e with time := t',
           segments := e.segments.map (fun p =>
             (p.1, update_position { p.2 with time := t' } e.fps)) }

/-- The per-LED merge of an incoming segment sample with the accumulated
buffers (light_effect.py lines 140-159): a first write replaces the black
initial color; otherwise the existing color is weighted by the stored
transparency and the new color by `new_t * (1 - stored_t)`, both re-normalised,
and the stored transparency accumulates as `t + new_t * (1 - t)` clamped to
`[0, 1]`. -/
def merge_led (dst : RGB) (dstT : ℚ) (src : RGB) (srcT : ℚ) : RGB × ℚ :=
  if dst = black then (src, srcT)
  else
    let weight_current := dstT
    let weight_new := srcT * (1 - dstT)
    let total_weight := weight_current + weight_new
    let merged :=
      if total_weight > 0 then
        blend_colors [dst, src] [weight_current / total_weight, weight_new / total_weight]
      else dst
    (merged, max 0 (min 1 (dstT + srcT * (1 - dstT))))

/-- SceneManager state projected to what the remove operation touches: the
insertion-ordered scene ids and the current scene id. -/
structure Manager where
  scenes : List ℤ
  current : Option ℤ
deriving DecidableEq, Repr

/-- SceneManager.remove_scene (scene_manager.py lines 45-55): delete the scene
if present, re-targeting `current_scene` first; there is no guard against
deleting the last scene. -/
def remove_scene (m : Manager) (sid : ℤ) : Manager :=
  if sid ∈ m.scenes then
    let cur' :=
      if m.current = some sid then
        if 1 < m.scenes.length then some ((m.scenes.filter (· ≠ sid)).headD sid) else none
      else m.current
    { scenes := m.scenes.erase sid, current := cur' }
  else m

/-- OSCHandler.scene_effect_remove_segment_callback, restricted to the segment
ids of the targeted effect: refuse when the id is missing or when it is the
effect's last segment, else delete. -/
def remove_segment_guarded (segs : List ℤ) (gid : ℤ) : List ℤ :=
  if gid ∉ segs then segs
  else if segs.length ≤ 1 then segs
  else segs.erase gid

/-- OSCHandler.scene_remove_effect_callback on the effect ids of a scene plus
its current effect id: refuse for a missing id or the last effect, else
re-target the current effect if needed and delete. -/
def remove_effect_guarded (effs : List ℤ) (cur : ℤ) (eid : ℤ) : List ℤ × ℤ :=
  if eid ∉ effs then (effs, cur)
  else if effs.length ≤ 1 then (effs, cur)
  else
    let cur' := if cur = eid then (effs.filter (· ≠ eid)).headD cur else cur
    (effs.erase eid, cur')

/-- OSCHandler.scene_manager_remove_scene_callback on the handler's scene ids:
the leading guard refuses when only one scene remains (and it is checked again
after the membership test), else delete. -/
def remove_scene_guarded (scs : List ℤ) (sid : ℤ) : List ℤ :=
  if scs.length ≤ 1 then scs
  else if sid ∉ scs then scs
  else if scs.length ≤ 1 then scs
  else scs.erase sid

/-- The 4 bytes `struct.pack("BBBB", r, g, b, 0)` appended per pixel by
OSCHandler.make_color_binary: each channel through `int(...)` then the
`[0, 255]` clamp, plus the reserved zero byte. -/
def pack_pixel (c : ℚ × ℚ × ℚ) : List ℤ :=
  [clamp255 (pyInt c.1), clamp255 (pyInt c.2.1), clamp255 (pyInt c.2.2), 0]

/-- OSCHandler.make_color_binary: start from the empty byte string and append
the packed 4-byte group of every pixel in order. -/
def make_color_binary (colors : List (ℚ × ℚ × ℚ)) : List ℤ :=
  colors.foldl (fun response_data color => response_data ++ pack_pixel color) []

/-- OSCHandler.send_led_binary_data, with the frame source and clock passed in:
nothing is sent when disabled or rate-limited or when the frame is empty;
otherwise exactly one datagram `(configured address, packed payload)` goes out. -/
def send_led_binary_data (enabled : Bool) (now last_send interval : ℚ)
    (addr : String) (frame : List (ℚ × ℚ × ℚ)) : Option (String × List ℤ) :=
  if enabled = false ∨ now - last_send < interval then none
  else if frame = [] then none
  else some (addr, make_color_binary frame)

/-- Concrete segments of the spec's scenarios S2, S3, S4 and of the claims'
witnesses, built through the constructor. -/
def s2seg : Segment :=
  mkSegment 1 [0, 1, 2, 3] [1, 1, 1, 1] [1, 1, 1] 10 0 9 8 true [0, 100, 200, 100, 0] 1

/-- The S3 wrap segment: start 9, speed +15, range [0, 9], wrap mode. -/
def s3seg : Segment :=
  mkSegment 1 [0, 1, 2, 3] [1, 1, 1, 1] [1, 1, 1] 15 0 9 9 false [0, 100, 200, 100, 0] 1

/-- The S4 dimming segment: trapezoid [0, 100, 400, 500, 1000], ratio 1, fade on. -/
def s4seg : Segment :=
  { mkSegment 1 [0, 1, 2, 3] [1, 1, 1, 1] [1, 1, 1] 0 0 9 0 true [0, 100, 400, 500, 1000] 1 with
    fade := true }

/-- The default segment built by SceneManager.create_new_scene
(config.py defaults: length [10,10,10], speed 10, range [0,224]). -/
def default_segment : Segment :=
  mkSegment 1 [0, 1, 2, 3] [1, 1, 1, 1] [10, 10, 10] 10 0 224 0 true [0, 100, 200, 100, 0] 1

/-- An effect holding one default segment, as created by create_new_scene. -/
def effC1 : Effect :=
  { mkEffect 1 225 60 with segments := [(1, default_segment)] }

/-- A fully red segment at alpha 0.5 covering LED 0 (the S5 shape): every
color index is out of range for the string palette, so every gradient stop
falls back to the error color (255, 0, 0). -/
def s5red : Segment :=
  mkSegment 1 [1, 1, 1, 1] [1/2, 1/2, 1/2, 1/2] [1, 0, 0] 0 0 9 0 true [0, 100, 200, 100, 0] 1

/-- The S5 companion segment with id 2 (same footprint, alpha 0.5). -/
def s5blue : Segment :=
  mkSegment 2 [2, 2, 2, 2] [1/2, 1/2, 1/2, 1/2] [1, 0, 0] 0 0 9 0 true [0, 100, 200, 100, 0] 1

/-- The S5 effect: two overlapping alpha-0.5 segments with ids 1 and 2. -/
def s5eff : Effect :=
  { mkEffect 1 10 60 with segments := [(1, s5red), (2, s5blue)] }

/-- An effect at a nonzero clock whose segment carries an unrelated clock,
for the update_all clock-overwrite witness. -/
def c10eff : Effect :=
  { mkEffect 2 10 10 with time := 5, segments := [(1, { s2seg with time := 42 })] }

/-- A test frame with channels needing both clamps and truncation. -/
def c9frame : List (ℚ × ℚ × ℚ) := [(300, -5, 427/10), (0, 255, 1/2)]

/-- Every successful per-LED sample is stored under an integer key. -/
lemma aux_led_sample_key {pos : ℚ} {Lt : ℤ} {lens : List ℤ} {base : List PyColor}
    {trs : List ℚ} {br : ℚ} {led : ℤ} {kv : PyKey × Sample}
    (h : led_sample pos Lt lens base trs br led = Except.ok kv) :
    ∃ n, kv.1 = PyKey.i n := by
  unfold led_sample at h
  rcases hv : sample_value pos Lt lens base trs br led with e | smp
  · rw [hv] at h; exact absurd h (by simp [Except.map])
  · rw [hv] at h
    simp only [Except.map] at h
    injection h with h'
    exact ⟨led, by rw [← h']⟩

/-- sample_leds only ever returns samples produced by its argument. -/
lemma aux_sample_leds_keys {f : ℤ → Except PyErr (PyKey × Sample)}
    (hf : ∀ i kv, f i = Except.ok kv → ∃ n, kv.1 = PyKey.i n) :
    ∀ (l : List ℤ) (d : List (PyKey × Sample)), sample_leds f l = Except.ok d →
      ∀ kv ∈ d, ∃ n, kv.1 = PyKey.i n := by
  intro l
  induction l with
  | nil =>
    intro d hd kv hkv
    simp only [sample_leds] at hd
    injection hd with hd'
    rw [← hd'] at hkv
    exact absurd hkv (by simp)
  | cons i rest ih =>
    intro d hd kv hkv
    simp only [sample_leds] at hd
    rcases h1 : f i with e1 | kv0
    · rw [h1] at hd; exact absurd hd (by simp)
    · rw [h1] at hd
      rcases h2 : sample_leds f rest with e2 | tl
      · rw [h2] at hd; exact absurd hd (by simp)
      · rw [h2] at hd
        injection hd with hd'
        rw [← hd'] at hkv
        rcases List.mem_cons.mp hkv with rfl | htl
        · exact hf i kv h1
        · exact ih tl h2 kv htl

/-- Every key of a dict returned by get_light_data is an integer LED index. -/
lemma aux_get_light_data_keys {s : Segment} {p : String} {d : List (PyKey × Sample)}
    (h : get_light_data s p = Except.ok d) :
    ∀ kv ∈ d, ∃ n, kv.1 = PyKey.i n := by
  unfold get_light_data at h
  dsimp only at h
  split at h
  · intro kv hkv
    injection h with h'
    rw [← h'] at hkv
    exact absurd hkv (by simp)
  · exact aux_sample_leds_keys (fun i kv hkv => aux_led_sample_key hkv) _ d h

/-- Subscripting a dict whose keys are all integers with a string key fails. -/
lemma aux_dict_find_str_none {d : List (PyKey × Sample)}
    (h : ∀ kv ∈ d, ∃ n, kv.1 = PyKey.i n) (str : String) :
    dict_find d (PyKey.s str) = none := by
  induction d with
  | nil => rfl
  | cons kv rest ih =>
    obtain ⟨n, hn⟩ := h kv (List.mem_cons_self kv rest)
    simp only [dict_find]
    rw [if_neg (by rw [hn]; exact fun hc => PyKey.noConfusion hc)]
    exact ih (fun kv' hkv' => h kv' (List.mem_cons_of_mem kv hkv'))

/-- Every iteration of get_led_output's segment loop raises: either
get_light_data itself raises, or the `'brightness'` subscript of its
integer-keyed result raises KeyError. -/
lemma aux_composite_step_none (pal : String) (st : LedState) (sg : ℤ × Segment) :
    (composite_step pal st sg).toOption = none := by
  unfold composite_step
  rcases h : get_light_data sg.2 pal with e | d
  · rfl
  · dsimp only
    rw [aux_dict_find_str_none (aux_get_light_data_keys h) ("brightness")]
    rfl

/-- A nonempty segment loop always raises. -/
lemma aux_composite_all_none (pal : String) :
    ∀ (l : List (ℤ × Segment)) (st : LedState), l ≠ [] →
      (composite_all pal st l).toOption = none := by
  intro l st hl
  match l with
  | [] => exact absurd rfl hl
  | sg :: rest =>
    simp only [composite_all]
    rcases h : composite_step pal st sg with e | st'
    · rfl
    · have := aux_composite_step_none pal st sg
      rw [h] at this
      exact absurd this (by simp [Except.toOption])

/-- insert_by_id never produces the empty list. -/
lemma aux_insert_by_id_ne_nil (p : ℤ × Segment) (l : List (ℤ × Segment)) :
    insert_by_id p l ≠ [] := by
  cases l with
  | nil => simp [insert_by_id]
  | cons q rest =>
    simp only [insert_by_id]
    split
    · exact List.cons_ne_nil _ _
    · exact List.cons_ne_nil _ _

/-- Sorting a nonempty segment list keeps it nonempty. -/
lemma aux_sort_by_id_ne_nil {l : List (ℤ × Segment)} (hl : l ≠ []) :
    sort_by_id l ≠ [] := by
  match l with
  | [] => exact absurd rfl hl
  | p :: rest => exact aux_insert_by_id_ne_nil p (sort_by_id rest)

/-- update_position always advances the clock by `1 / fps`, whatever edge
branch is taken. -/
lemma aux_update_position_time (s : Segment) (fps : ℕ) :
    (update_position s fps).time = s.time + 1 / (fps : ℚ) := by
  unfold update_position
  dsimp only
  split
  · split
    · rfl
    · split <;> rfl
  · rfl

/-- Rendering any effect that owns at least one segment raises. -/
lemma aux_render_none (e : Effect) (h : e.segments ≠ []) :
    (get_led_output e).toOption = none := by
  have hs := aux_composite_all_none e.current_palette (sort_by_id e.segments)
    { led_colors := List.replicate e.led_count black
      led_transparency := List.replicate e.led_count 1 }
    (aux_sort_by_id_ne_nil h)
  unfold get_led_output
  dsimp only
  rcases hc : composite_all e.current_palette
      { led_colors := List.replicate e.led_count black
        led_transparency := List.replicate e.led_count 1 }
      (sort_by_id e.segments) with err | st'
  · rfl
  · rw [hc] at hs
    exact absurd hs (by simp [Except.toOption])

/-- The clamp of the color kernel lands in `[0, 255]`. -/
lemma aux_clamp255_bounds (n : ℤ) : 0 ≤ clamp255 n ∧ clamp255 n ≤ 255 := by
  unfold clamp255
  omega

/-- Folding append over a list is concatenation of the per-element blocks. -/
lemma aux_foldl_append (f : α → List β) :
    ∀ (l : List α) (acc : List β),
      l.foldl (fun a x => a ++ f x) acc = acc ++ l.flatMap f := by
  intro l
  induction l with
  | nil => intro acc; simp
  | cons x rest ih =>
    intro acc
    simp only [List.foldl, List.flatMap_cons]
    rw [ih, List.append_assoc]

/-- C1.  The claim says get_led_output returns, for every valid state, a list
of led_count in-range RGB triples without raising.  In the source the function
passes the palette *name* to get_light_data (whose body indexes it as a color
list) and then subscripts the returned per-LED dict with the string keys
`'brightness'`/`'positions'` that it never contains, so the very first
segment iteration raises (KeyError, or TypeError from inside get_light_data);
rendering returns only for an effect with no segments.  This theorem evaluates
the code on the failing class of inputs: any effect with at least one segment
produces no output frame. -/
theorem claim_C1 (e : Effect) (h : e.segments ≠ []) :
    (get_led_output e).toOption = none :=
  aux_render_none e h

/-- Witness for C1 at the default effect built by create_new_scene. -/
theorem claim_C1_witness :
    effC1.segments ≠ [] ∧ (get_led_output effC1).toOption = none :=
  ⟨by simp [effC1, mkEffect], claim_C1 effC1 (by simp [effC1, mkEffect])⟩

/-- C2 counterexample.  The claim says the S5 effect (segment 1 fully red at
alpha 0.5, segment 2 fully blue at alpha 0.5 over one LED) composits LED 0 to
(85, 0, 170) with accumulated alpha 0.75.  On the code, get_led_output of that
effect raises before compositing anything, so no output frame (and in
particular no (85, 0, 170) pixel) exists. -/
theorem claim_C2_cex : (get_led_output s5eff).toOption = none :=
  aux_render_none s5eff (by simp [s5eff, mkEffect])

/-- C2 amended.  The per-LED merge step of get_led_output (unreachable as
written, and modelled in exact arithmetic) weights the stored color by its
stored alpha and the incoming color by `src_alpha * (1 - stored_alpha)`,
re-normalised - the reverse stacking order of the Porter-Duff over operator
of section 4.1.  For the S5 inputs the first write stores (255,0,0) at alpha
0.5 and the merge with (0,0,255) at alpha 0.5 yields color (170, 0, 85) - not
(85, 0, 170) - with accumulated alpha 0.75. -/
theorem claim_C2_amended :
    merge_led black 1 ⟨255, 0, 0⟩ (1/2) = (⟨255, 0, 0⟩, 1/2) ∧
    merge_led ⟨255, 0, 0⟩ (1/2) ⟨0, 0, 255⟩ (1/2) = (⟨170, 0, 85⟩, 3/4) := by
  constructor
  · simp [merge_led]
  · simp only [merge_led, blend_colors, black]
    norm_num [pyInt, clamp255]
    decide

/-- C3 counterexample.  The claim says interpolate_colors computes
componentwise `round(a + (b - a) * clamp(t, 0, 1))`.  The code neither clamps
the factor (t = 2 extrapolates to 200 where the spec formula gives 100) nor
rounds to nearest (t = 1/2 on channels 0 and 3 truncates 1.5 to 1 where the
spec formula gives 2). -/
theorem claim_C3_cex :
    interpolate_colors ⟨0, 0, 0⟩ ⟨100, 0, 0⟩ 2 = ⟨200, 0, 0⟩ ∧
    interpolate_spec ⟨0, 0, 0⟩ ⟨100, 0, 0⟩ 2 = ⟨100, 0, 0⟩ ∧
    interpolate_colors ⟨0, 0, 0⟩ ⟨3, 0, 0⟩ (1/2) = ⟨1, 0, 0⟩ ∧
    interpolate_spec ⟨0, 0, 0⟩ ⟨3, 0, 0⟩ (1/2) = ⟨2, 0, 0⟩ := by
  refine ⟨?_, ?_, ?_, ?_⟩ <;>
    norm_num [interpolate_colors, interpolate_spec, pyInt, clamp255, round_eq]

/-- C3 amended.  For every pair of RGB colors and every rational factor t,
interpolate_colors returns componentwise `trunc(a + (b - a) * t)` - truncation
toward zero of the unclamped interpolation - clamped to [0, 255], and each
resulting channel lies in [0, 255]. -/
theorem claim_C3_amended (c1 c2 : RGB) (t : ℚ) :
    interpolate_colors c1 c2 t = interpolate_amended c1 c2 t ∧
    0 ≤ (interpolate_colors c1 c2 t).r ∧ (interpolate_colors c1 c2 t).r ≤ 255 ∧
    0 ≤ (interpolate_colors c1 c2 t).g ∧ (interpolate_colors c1 c2 t).g ≤ 255 ∧
    0 ≤ (interpolate_colors c1 c2 t).b ∧ (interpolate_colors c1 c2 t).b ≤ 255 :=
  ⟨rfl,
   (aux_clamp255_bounds _).1, (aux_clamp255_bounds _).2,
   (aux_clamp255_bounds _).1, (aux_clamp255_bounds _).2,
   (aux_clamp255_bounds _).1, (aux_clamp255_bounds _).2⟩

/-- Witness for the amended C3 at a concrete input with hypothesis-free
instantiation of the equality and the bounds. -/
theorem claim_C3_amended_witness :
    interpolate_colors ⟨0, 0, 0⟩ ⟨100, 0, 0⟩ 2 = interpolate_amended ⟨0, 0, 0⟩ ⟨100, 0, 0⟩ 2 :=
  (claim_C3_amended ⟨0, 0, 0⟩ ⟨100, 0, 0⟩ 2).1

/-- C4 counterexample.  The claim says the S3 wrap tick (start 9, speed +15,
fps 10, range [0, 9], total length 3) ends at position 0 after the safety
clamp.  The code measures the overshoot from the segment's right end
(10.5 + 3 - 1 - 9 = 3.5), wraps to 0 + 3.5 - 1 = 2.5, and the safety clamp
leaves 2.5 unchanged. -/
theorem claim_C4_cex :
    (update_position s3seg 10).current_position = 5/2 ∧
    (update_position s3seg 10).current_position ≠ 0 := by
  constructor <;> norm_num [update_position, s3seg, mkSegment]

/-- C4 amended.  For the S3 segment one tick produces raw position 10.5,
wraps with right-end overshoot 3.5 to 2.5, and the safety clamp does not
fire: the final current_position is 2.5. -/
theorem claim_C4_amended :
    s3seg.current_position + s3seg.move_speed * (1/10) = 21/2 ∧
    s3seg.current_position + s3seg.move_speed * (1/10) + (s3seg.length.sum : ℚ) - 1 - s3seg.moveHi = 7/2 ∧
    (update_position s3seg 10).current_position = 5/2 := by
  refine ⟨?_, ?_, ?_⟩ <;> norm_num [update_position, s3seg, mkSegment]

/-- C5.  In reflect mode with the segment fitting its range, a tick whose raw
position overshoots the right edge clamps the anchor to
`move_range[1] - total_length + 1` and flips the speed to `-|speed|`, and a
tick undershooting the left edge clamps to `move_range[0]` with speed
`+|speed|`; concretely the S2 segment is at position 7 with speed -10 after
one tick and at position 6 after the next. -/
theorem claim_C5 :
    (∀ (s : Segment) (fps : ℕ), s.is_edge_reflect = true →
      (s.length.sum : ℚ) ≤ s.moveHi - s.moveLo + 1 →
      ((s.current_position + s.move_speed * (1 / (fps : ℚ)) + (s.length.sum : ℚ) - 1 > s.moveHi →
        (update_position s fps).current_position = s.moveHi - (s.length.sum : ℚ) + 1 ∧
        (update_position s fps).move_speed = -|s.move_speed|) ∧
       (s.current_position + s.move_speed * (1 / (fps : ℚ)) < s.moveLo →
        (update_position s fps).current_position = s.moveLo ∧
        (update_position s fps).move_speed = |s.move_speed|))) ∧
    (update_position s2seg 10).current_position = 7 ∧
    (update_position s2seg 10).move_speed = -10 ∧
    (update_position (update_position s2seg 10) 10).current_position = 6 := by
  refine ⟨?_, ?_, ?_, ?_⟩
  · intro s fps hrefl htot
    constructor
    · intro hover
      simp only [update_position]
      rw [if_pos hrefl]
      rw [if_neg (by intro hlt; linarith), if_pos hover]
      exact ⟨rfl, rfl⟩
    · intro hunder
      simp only [update_position]
      rw [if_pos hrefl, if_pos hunder]
      exact ⟨rfl, rfl⟩
  · norm_num [update_position, s2seg, mkSegment]
  · norm_num [update_position, s2seg, mkSegment]
  · norm_num [update_position, s2seg, mkSegment]

/-- Witness for C5 instantiating the general reflect rule at the S2 segment. -/
theorem claim_C5_witness :
    s2seg.is_edge_reflect = true ∧
    (s2seg.length.sum : ℚ) ≤ s2seg.moveHi - s2seg.moveLo + 1 ∧
    s2seg.current_position + s2seg.move_speed * (1 / (10 : ℚ)) + (s2seg.length.sum : ℚ) - 1 > s2seg.moveHi ∧
    (update_position s2seg 10).current_position = s2seg.moveHi - (s2seg.length.sum : ℚ) + 1 ∧
    (update_position s2seg 10).move_speed = -|s2seg.move_speed| := by
  have h1 : s2seg.is_edge_reflect = true := rfl
  have h2 : (s2seg.length.sum : ℚ) ≤ s2seg.moveHi - s2seg.moveLo + 1 := by
    norm_num [s2seg, mkSegment]
  have h3 : s2seg.current_position + s2seg.move_speed * (1 / (10 : ℚ)) + (s2seg.length.sum : ℚ) - 1 > s2seg.moveHi := by
    norm_num [s2seg, mkSegment]
  exact ⟨h1, h2, h3, (claim_C5.1 s2seg 10 h1 h2).1 h3⟩

/-- C6.  For every reflect-mode segment whose total length fits the width of
its move range, any single update_position leaves the anchor inside the
admissible band: `move_range[0] ≤ current_position` and
`current_position + total_length - 1 ≤ move_range[1]`. -/
theorem claim_C6 (s : Segment) (fps : ℕ) (hrefl : s.is_edge_reflect = true)
    (htot : (s.length.sum : ℚ) ≤ s.moveHi - s.moveLo + 1) :
    s.moveLo ≤ (update_position s fps).current_position ∧
    (update_position s fps).current_position + (s.length.sum : ℚ) - 1 ≤ s.moveHi := by
  simp only [update_position]
  rw [if_pos hrefl]
  split_ifs with h1 h2
  · constructor
    · exact le_refl _
    · dsimp only
      linarith
  · constructor
    · dsimp only
      linarith
    · dsimp only
      linarith
  · constructor
    · dsimp only
      linarith
    · dsimp only
      linarith

/-- Witness for C6 at the S2 segment and fps 10. -/
theorem claim_C6_witness :
    s2seg.is_edge_reflect = true ∧
    (s2seg.length.sum : ℚ) ≤ s2seg.moveHi - s2seg.moveLo + 1 ∧
    s2seg.moveLo ≤ (update_position s2seg 10).current_position ∧
    (update_position s2seg 10).current_position + (s2seg.length.sum : ℚ) - 1 ≤ s2seg.moveHi := by
  have h2 : (s2seg.length.sum : ℚ) ≤ s2seg.moveHi - s2seg.moveLo + 1 := by
    norm_num [s2seg, mkSegment]
  exact ⟨rfl, h2, claim_C6 s2seg 10 rfl h2⟩

/-- C7.  The dimming envelope is 1.0 whenever fade is off or the cycle length
entry is not positive, and for the S4 segment (dimmer_time
[0, 100, 400, 500, 1000], ratio 1, fade on) it evaluates to 0.5 at 0.050 s,
1.0 at 0.250 s, 0.5 at 0.450 s, 0 at 0.600 s, and - after cycling - 0.5 at
1.050 s. -/
theorem claim_C7 :
    (∀ s : Segment, s.fade = false → apply_dimming s = 1) ∧
    (∀ s : Segment, s.dimmer_time.getD 4 0 ≤ 0 → apply_dimming s = 1) ∧
    apply_dimming { s4seg with time := 1/20 } = 1/2 ∧
    apply_dimming { s4seg with time := 1/4 } = 1 ∧
    apply_dimming { s4seg with time := 9/20 } = 1/2 ∧
    apply_dimming { s4seg with time := 3/5 } = 0 ∧
    apply_dimming { s4seg with time := 21/20 } = 1/2 := by
  refine ⟨?_, ?_, ?_, ?_, ?_, ?_, ?_⟩
  · intro s hfade
    unfold apply_dimming
    rw [if_pos (Or.inl hfade)]
  · intro s hcyc
    unfold apply_dimming
    rw [if_pos (Or.inr (Or.inr hcyc))]
  · norm_num [apply_dimming, s4seg, mkSegment, pyInt, pyMod]
  · norm_num [apply_dimming, s4seg, mkSegment, pyInt, pyMod]
  · norm_num [apply_dimming, s4seg, mkSegment, pyInt, pyMod]
  · norm_num [apply_dimming, s4seg, mkSegment, pyInt, pyMod]
  · norm_num [apply_dimming, s4seg, mkSegment, pyInt, pyMod]

/-- Witness for C7 applying the fade-off rule to the S2 segment (whose fade
flag was never turned on). -/
theorem claim_C7_witness :
    s2seg.fade = false ∧ apply_dimming s2seg = 1 :=
  ⟨rfl, claim_C7.1 s2seg rfl⟩

/-- C8 counterexample.  The claim says a remove of the manager's only scene is
always refused with the state unchanged.  SceneManager.remove_scene (cited by
the claim) has no such guard: on a manager holding only scene 1 it deletes the
scene and nulls the current pointer. -/
theorem claim_C8_cex :
    remove_scene ⟨[1], some 1⟩ 1 = ⟨[], none⟩ := by
  decide

/-- C8 amended.  The last-child guard lives in the OSC remove callbacks, not
in the model methods: the segment, effect and scene remove callbacks leave a
single-child container unchanged and never empty a nonempty container, while
a direct SceneManager.remove_scene call deletes even the manager's only
scene. -/
theorem claim_C8_amended :
    (∀ (l : List ℤ) (g : ℤ), l.length = 1 → remove_segment_guarded l g = l) ∧
    (∀ (l : List ℤ) (g : ℤ), l ≠ [] → remove_segment_guarded l g ≠ []) ∧
    (∀ (l : List ℤ) (c e : ℤ), l.length = 1 → remove_effect_guarded l c e = (l, c)) ∧
    (∀ (l : List ℤ) (c e : ℤ), l ≠ [] → (remove_effect_guarded l c e).1 ≠ []) ∧
    (∀ (l : List ℤ) (g : ℤ), l.length = 1 → remove_scene_guarded l g = l) ∧
    (∀ (l : List ℤ) (g : ℤ), l ≠ [] → remove_scene_guarded l g ≠ []) := by
  have herase : ∀ (l : List ℤ) (g : ℤ), g ∈ l → ¬l.length ≤ 1 → l.erase g ≠ [] := by
    intro l g hmem hlen hnil
    have hl := List.length_erase_of_mem hmem
    rw [hnil] at hl
    simp only [List.length_nil] at hl
    omega
  refine ⟨?_, ?_, ?_, ?_, ?_, ?_⟩
  · intro l g hl
    unfold remove_segment_guarded
    split_ifs with h1 h2 <;> first | rfl | (exfalso; omega)
  · intro l g hl
    unfold remove_segment_guarded
    split_ifs with h1 h2 <;>
      first | exact hl | exact herase l g (by assumption) (by assumption)
  · intro l c e hl
    unfold remove_effect_guarded
    split_ifs with h1 h2 h3 <;> first | rfl | (exfalso; omega)
  · intro l c e hl
    unfold remove_effect_guarded
    split_ifs with h1 h2 h3 <;>
      first
        | exact hl
        | (dsimp only; exact herase l e (by assumption) (by assumption))
  · intro l g hl
    unfold remove_scene_guarded
    split_ifs with h1 h2 <;> first | rfl | (exfalso; omega)
  · intro l g hl
    unfold remove_scene_guarded
    split_ifs with h1 h2 <;>
      first | exact hl | exact herase l g (by assumption) (by assumption)

/-- Witness for the amended C8: each guarded remove refuses on a singleton
container. -/
theorem claim_C8_witness :
    remove_segment_guarded [5] 5 = [5] ∧
    remove_effect_guarded [7] 7 7 = ([7], 7) ∧
    remove_scene_guarded [9] 9 = [9] :=
  ⟨claim_C8_amended.1 [5] 5 rfl,
   claim_C8_amended.2.2.1 [7] 7 7 rfl,
   claim_C8_amended.2.2.2.2.1 [9] 9 rfl⟩

/-- C9.  For every frame of n pixels, make_color_binary emits exactly 4*n
bytes laid out as consecutive groups `R, G, B, 0` with each channel converted
to an integer and clamped into [0, 255]; when the emitter is enabled, due, and
the frame is nonempty the whole payload goes out as one datagram tagged with
the configured address. -/
theorem claim_C9 :
    (∀ frame : List (ℚ × ℚ × ℚ), (make_color_binary frame).length = 4 * frame.length) ∧
    (∀ frame : List (ℚ × ℚ × ℚ), make_color_binary frame = frame.flatMap pack_pixel) ∧
    (∀ frame : List (ℚ × ℚ × ℚ), ∀ byte ∈ make_color_binary frame, 0 ≤ byte ∧ byte ≤ 255) ∧
    (∀ (now last interval : ℚ) (addr : String) (frame : List (ℚ × ℚ × ℚ)),
      ¬(now - last < interval) → frame ≠ [] →
      send_led_binary_data true now last interval addr frame =
        some (addr, make_color_binary frame)) := by
  have hflat : ∀ frame : List (ℚ × ℚ × ℚ), make_color_binary frame = frame.flatMap pack_pixel := by
    intro frame
    unfold make_color_binary
    rw [aux_foldl_append pack_pixel frame []]
    rfl
  refine ⟨?_, hflat, ?_, ?_⟩
  · intro frame
    rw [hflat]
    induction frame with
    | nil => rfl
    | cons c rest ih =>
      simp only [List.flatMap_cons, List.length_append, List.length_cons, ih]
      simp [pack_pixel]
      ring
  · intro frame byte hmem
    rw [hflat] at hmem
    obtain ⟨c, _, hc⟩ := List.mem_flatMap.mp hmem
    simp only [pack_pixel, List.mem_cons, List.mem_singleton] at hc
    rcases hc with rfl | rfl | rfl | rfl | hc
    · exact aux_clamp255_bounds _
    · exact aux_clamp255_bounds _
    · exact aux_clamp255_bounds _
    · exact ⟨le_refl 0, by norm_num⟩
    · exact absurd hc (List.not_mem_nil _)
  · intro now last interval addr frame hdue hne
    unfold send_led_binary_data
    rw [if_neg (by simp [hdue]), if_neg hne]

/-- Witness for C9 at the test frame (clamping 300 up, -5 down, truncating
42.7 and 0.5). -/
theorem claim_C9_witness :
    (make_color_binary c9frame).length = 4 * c9frame.length ∧
    send_led_binary_data true 10 0 (1/60) ("/led") c9frame =
      some (("/led"), make_color_binary c9frame) :=
  ⟨claim_C9.1 c9frame,
   claim_C9.2.2.2 10 0 (1/60) ("/led") c9frame (by norm_num)
     (by simp [c9frame])⟩

/-- C10.  After every update_all call, each owned segment's clock equals the
effect's (just advanced) clock plus `1 / fps`, regardless of the clock the
segment held before: update_all first overwrites the segment clock with the
effect clock and update_position then adds one tick. -/
theorem claim_C10 (e : Effect) (_hfps : 0 < e.fps) :
    ∀ p ∈ (update_all e).segments, p.2.time = (update_all e).time + 1 / (e.fps : ℚ) := by
  intro p hp
  simp only [update_all] at hp ⊢
  obtain ⟨q, hq, rfl⟩ := List.mem_map.mp hp
  dsimp only
  rw [aux_update_position_time]

/-- Witness for C10 at an effect whose clock is 5 and whose single segment
carries the unrelated clock 42. -/
theorem claim_C10_witness :
    0 < c10eff.fps ∧
    ((update_all c10eff).segments.getD 0 (0, s2seg)).2.time =
      (update_all c10eff).time + 1 / (c10eff.fps : ℚ) := by
  refine ⟨by norm_num [c10eff, mkEffect], ?_⟩
  refine claim_C10 c10eff (by norm_num [c10eff, mkEffect]) _ ?_
  simp only [update_all, c10eff, mkEffect, List.map]
  exact List.mem_cons_self _ _

end TapeLight
